import Mathlib

/-!
# AgriChat persistence layer — verification development

Shallow embedding of the AgriChat persistence/fallback layer:
the MySQL-backed query layer (backend/models/conversation.js, message model),
the Express route layer (backend/routes/api.js, backend/server.js), and the
client persistence façade with its localStorage fallback (js/database-service.js).

JavaScript values appearing in request bodies are modelled by the JSON-like
type `J`; machine timestamps are `Nat`; MySQL result sets are Lean lists with
ORDER BY / LIMIT / OFFSET modelled by sorting, `take` and `drop`; a thrown
JavaScript exception (or a rejected promise from an `async` method) is
`Except.error`.
-/

set_option maxRecDepth 400000

namespace AgriChat

/-- JSON-like values: request/response bodies and fields bound from them. -/
inductive J where
  | jnull
  | jbool (b : Bool)
  | jnum (n : Nat)
  | jstr (s : String)
  | jarr (xs : List J)
  | jobj (fields : List (String × J))

/-- Key lookup in an object field list (first match wins). -/
def lookupField (key : String) : List (String × J) → Option J
  | [] => none
  | (k, v) :: rest => if k == key then some v else lookupField key rest

/-- Property access `body.key` on a JSON value; `none` models `undefined`. -/
def jLookup (key : String) (j : J) : Option J :=
  match j with
  | J.jobj fs => lookupField key fs
  | _ => none

/-- JavaScript truthiness of a possibly-undefined value. -/
def jsTruthy : Option J → Bool
  | none => false
  | some J.jnull => false
  | some (J.jbool b) => b
  | some (J.jnum n) => !(n == 0)
  | some (J.jstr s) => !(s == "")
  | some (J.jarr _) => true
  | some (J.jobj _) => true

/-- `typeof v === 'string'` on a possibly-undefined value. -/
def isJStr : Option J → Bool
  | some (J.jstr _) => true
  | _ => false

/-- Extract the string payload (empty string when not a string). -/
def jStrD : Option J → String
  | some (J.jstr s) => s
  | _ => ""

/-- `['user','ai','error'].includes(v)`: strict equality against string
literals, so non-strings are never included. -/
def jIncludes (v : Option J) (ss : List String) : Bool :=
  match v with
  | some (J.jstr s) => ss.contains s
  | _ => false

/-- Does the JSON object carry a boolean field under this key?  Used to state
the uniform response envelope property. -/
def hasBoolKey (key : String) (j : J) : Bool :=
  match jLookup key j with
  | some (J.jbool _) => true
  | _ => false

/-- Does the JSON object carry pagination metadata with limit, offset and
count?  Used to state the list-endpoint envelope property. -/
def hasPagination (j : J) : Bool :=
  match jLookup "pagination" j with
  | some p => (jLookup "limit" p).isSome && (jLookup "offset" p).isSome && (jLookup "count" p).isSome
  | none => false

/-- The character list of a string, lower-cased (models toLowerCase / the
case-insensitive MySQL collation under LIKE). -/
def lowerStr (s : String) : List Char := s.data.map Char.toLower

/-- The character list of a string with leading/trailing whitespace removed
(models the JavaScript trim). -/
def trimStr (s : String) : List Char :=
  ((s.data.dropWhile Char.isWhitespace).reverse.dropWhile Char.isWhitespace).reverse

/-- Prefix test on character lists. -/
def isPrefixChars : List Char → List Char → Bool
  | [], _ => true
  | _ :: _, [] => false
  | a :: as, b :: bs => a == b && isPrefixChars as bs

/-- Contiguous-substring test on character lists. -/
def isInfixChars (needle : List Char) : List Char → Bool
  | [] => needle.isEmpty
  | c :: rest => isPrefixChars needle (c :: rest) || isInfixChars needle rest

/-- Case-insensitive substring containment: models both
title.toLowerCase().includes(query.toLowerCase()) on the client and
content LIKE the pattern built from the query under MySQL's default
case-insensitive collation on the server. -/
def strContainsCI (hay needle : String) : Bool :=
  isInfixChars (lowerStr needle) (lowerStr hay)

/-- SQL LIKE applied to the stored title value: matches only when the stored
value is a string containing the query; NULL (or another non-string) never
matches. -/
def jLike (v : J) (needle : String) : Bool :=
  match v with
  | J.jstr s => strContainsCI s needle
  | _ => false

/-- parseInt on a route parameter: leading decimal digits after trimming,
none when the parameter does not start with a digit (NaN). -/
def parseIntOpt (s : String) : Option Nat :=
  let ds := (trimStr s).takeWhile Char.isDigit
  if ds.isEmpty then none
  else some (ds.foldl (fun acc c => acc * 10 + (c.toNat - 48)) 0)

/-! ## Backend relational state (schema.sql) -/

/-- A row of the conversations table.  The title and user reference keep the
JSON value bound at the route so that non-string bindings (NULL, the empty
string) flow through unchanged. -/
structure ConvRow where
  id : Nat
  title : J
  user_id : J
  created_at : Nat
  updated_at : Nat

/-- A row of the messages table. -/
structure MsgRow where
  id : Nat
  conversation_id : Nat
  content : String
  type : String
  timestamp : Nat

/-- The backend database state.  `timestampUpdateFails` models the one error
path the model layer distinguishes: the UPDATE touching the parent
conversation's updated_at throwing, which Message.updateConversationTimestamp
catches and does not rethrow. -/
structure Db where
  conversations : List ConvRow
  messages : List MsgRow
  nextConvId : Nat
  nextMsgId : Nat
  timestampUpdateFails : Bool

/-- ORDER BY c.updated_at DESC. -/
def byUpdatedDesc (a b : ConvRow) : Prop := b.updated_at ≤ a.updated_at

instance : DecidableRel byUpdatedDesc := fun a b => Nat.decLe b.updated_at a.updated_at
instance : IsTotal ConvRow byUpdatedDesc := ⟨fun a b => Nat.le_total b.updated_at a.updated_at⟩
instance : IsTrans ConvRow byUpdatedDesc := ⟨fun _ _ _ h1 h2 => Nat.le_trans h2 h1⟩

/-- ORDER BY m.timestamp ASC. -/
def byTimestampAsc (a b : MsgRow) : Prop := a.timestamp ≤ b.timestamp

instance : DecidableRel byTimestampAsc := fun a b => Nat.decLe a.timestamp b.timestamp
instance : IsTotal MsgRow byTimestampAsc := ⟨fun a b => Nat.le_total a.timestamp b.timestamp⟩
instance : IsTrans MsgRow byTimestampAsc := ⟨fun _ _ _ h1 h2 => Nat.le_trans h1 h2⟩

/-- ORDER BY m.timestamp DESC. -/
def byTimestampDesc (a b : MsgRow) : Prop := b.timestamp ≤ a.timestamp

instance : DecidableRel byTimestampDesc := fun a b => Nat.decLe b.timestamp a.timestamp
instance : IsTotal MsgRow byTimestampDesc := ⟨fun a b => Nat.le_total b.timestamp a.timestamp⟩
instance : IsTrans MsgRow byTimestampDesc := ⟨fun _ _ _ h1 h2 => Nat.le_trans h2 h1⟩

namespace Conversation

/-- Conversation.create: INSERT with server-assigned timestamps. -/
def create (db : Db) (title user_id : J) (now : Nat) : ConvRow × Db :=
  let row : ConvRow :=
    { id := db.nextConvId, title := title, user_id := user_id, created_at := now, updated_at := now }
  (row, { db with conversations := db.conversations ++ [row], nextConvId := db.nextConvId + 1 })

/-- Conversation.findById: single-row lookup (aggregates elided). -/
def findById (db : Db) (id : Nat) : Option ConvRow :=
  db.conversations.find? (fun c => c.id == id)

/-- Conversation.findAll: ORDER BY updated_at DESC LIMIT ? OFFSET ?. -/
def findAll (db : Db) (limit offset : Nat) : List ConvRow :=
  ((List.insertionSort byUpdatedDesc db.conversations).drop offset).take limit

/-- The WHERE clause of Conversation.search on a single conversation after
the LEFT JOIN with its messages: the title matches or some message content
matches; GROUP BY c.id collapses the joined rows back to one per
conversation. -/
def convMatches (db : Db) (query : String) (c : ConvRow) : Bool :=
  jLike c.title query ||
    (db.messages.filter (fun m => m.conversation_id == c.id)).any
      (fun m => strContainsCI m.content query)

/-- Conversation.search: case-insensitive substring match against title or
message content, deduplicated per conversation by GROUP BY c.id, ORDER BY
updated_at DESC LIMIT ?. -/
def search (db : Db) (query : String) (limit : Nat) : List ConvRow :=
  (List.insertionSort byUpdatedDesc (db.conversations.filter (convMatches db query))).take limit

end Conversation

namespace Message

/-- Message.updateConversationTimestamp: UPDATE conversations SET
updated_at = NOW() WHERE id = ?.  A query error is caught and logged, never
rethrown, so on failure the state is simply left unchanged. -/
def updateConversationTimestamp (db : Db) (convId : Nat) (now : Nat) : Db :=
  if db.timestampUpdateFails then db
  else
    { db with
      conversations :=
        db.conversations.map (fun c =>
          if c.id == convId then { c with updated_at := now } else c) }

/-- Message.create: INSERT the message row (the schema's foreign key makes
the insert throw when the parent conversation is absent), then the
best-effort touch of the parent conversation's updated_at. -/
def create (db : Db) (convId : Nat) (content ty : String) (now : Nat) :
    Except String (MsgRow × Db) :=
  if db.conversations.any (fun c => c.id == convId) then
    let row : MsgRow :=
      { id := db.nextMsgId, conversation_id := convId, content := content, type := ty,
        timestamp := now }
    let db1 : Db := { db with messages := db.messages ++ [row], nextMsgId := db.nextMsgId + 1 }
    Except.ok (row, updateConversationTimestamp db1 convId now)
  else Except.error "foreign key constraint fails"

/-- The messages of one conversation, in table order. -/
def ofConversation (db : Db) (convId : Nat) : List MsgRow :=
  db.messages.filter (fun m => m.conversation_id == convId)

/-- Message.findByConversationId: ORDER BY timestamp ASC LIMIT ? OFFSET ?. -/
def findByConversationId (db : Db) (convId limit offset : Nat) : List MsgRow :=
  ((List.insertionSort byTimestampAsc (ofConversation db convId)).drop offset).take limit

/-- Message.getRecentMessages: ORDER BY timestamp DESC LIMIT ?, then
reverse() back to chronological order. -/
def getRecentMessages (db : Db) (convId count : Nat) : List MsgRow :=
  ((List.insertionSort byTimestampDesc (ofConversation db convId)).take count).reverse

end Message

/-! ## HTTP route layer (backend/routes/api.js, backend/server.js) -/

/-- An HTTP response: status code and JSON body. -/
structure HttpResponse where
  status : Nat
  body : J

/-- validateConversationInput middleware: rejects a present title that is not
a string or trims to empty; an absent (or otherwise falsy) title passes. -/
def validateConversationInput (body : J) : Option HttpResponse :=
  let title := jLookup "title" body
  if jsTruthy title && (!(isJStr title) || (trimStr (jStrD title)).isEmpty) then
    some { status := 400,
           body := J.jobj [("error", J.jstr "Invalid title. Title must be a non-empty string.")] }
  else none

/-- validateMessageInput middleware: content must be a truthy string with
non-empty trim; type must be one of user, ai, error. -/
def validateMessageInput (body : J) : Option HttpResponse :=
  let content := jLookup "content" body
  let ty := jLookup "type" body
  if !(jsTruthy content) || !(isJStr content) || (trimStr (jStrD content)).isEmpty then
    some { status := 400,
           body := J.jobj [("error", J.jstr "Invalid content. Content must be a non-empty string.")] }
  else if !(jsTruthy ty) || !(jIncludes ty ["user", "ai", "error"]) then
    some { status := 400,
           body := J.jobj [("error", J.jstr "Invalid type. Type must be one of: user, ai, error.")] }
  else none

/-- The JSON rendering of a conversation row. -/
def convRowToJ (c : ConvRow) : J :=
  J.jobj [("id", J.jnum c.id), ("title", c.title), ("user_id", c.user_id),
          ("created_at", J.jnum c.created_at), ("updated_at", J.jnum c.updated_at)]

/-- The JSON rendering of a message row. -/
def msgRowToJ (m : MsgRow) : J :=
  J.jobj [("id", J.jnum m.id), ("conversation_id", J.jnum m.conversation_id),
          ("content", J.jstr m.content), ("type", J.jstr m.type),
          ("timestamp", J.jnum m.timestamp)]

/-- req.body.user_id or null. -/
def userIdOf (body : J) : J :=
  match jLookup "user_id" body with
  | some v => if jsTruthy (some v) then v else J.jnull
  | none => J.jnull

/-- POST /api/conversations: validation middleware, then create with the
destructuring default title of New Conversation applied only when the title
property is absent. -/
def postConversations (db : Db) (body : J) (now : Nat) : HttpResponse × Db :=
  match validateConversationInput body with
  | some resp => (resp, db)
  | none =>
    let title := (jLookup "title" body).getD (J.jstr "New Conversation")
    let res := Conversation.create db title (userIdOf body) now
    ({ status := 201, body := J.jobj [("success", J.jbool true), ("data", convRowToJ res.1)] },
     res.2)

/-- GET /api/conversations: list endpoint with pagination metadata. -/
def getConversationsRoute (db : Db) (limit offset : Nat) : HttpResponse :=
  let conversations := Conversation.findAll db limit offset
  { status := 200,
    body := J.jobj
      [("success", J.jbool true),
       ("data", J.jarr (conversations.map convRowToJ)),
       ("pagination", J.jobj
         [("limit", J.jnum limit), ("offset", J.jnum offset),
          ("count", J.jnum conversations.length)])] }

/-- GET /api/conversations/:id/messages: id validation, existence check,
then the paginated ascending message list. -/
def getMessagesRoute (db : Db) (idParam : String) (limit offset : Nat) : HttpResponse :=
  match parseIntOpt idParam with
  | none =>
    { status := 400,
      body := J.jobj [("success", J.jbool false), ("error", J.jstr "Invalid conversation ID")] }
  | some id =>
    match Conversation.findById db id with
    | none =>
      { status := 404,
        body := J.jobj [("success", J.jbool false), ("error", J.jstr "Conversation not found")] }
    | some _ =>
      let messages := Message.findByConversationId db id limit offset
      { status := 200,
        body := J.jobj
          [("success", J.jbool true),
           ("data", J.jarr (messages.map msgRowToJ)),
           ("pagination", J.jobj
             [("limit", J.jnum limit), ("offset", J.jnum offset),
              ("count", J.jnum messages.length)])] }

/-- POST /api/conversations/:id/messages: validation middleware, id check,
parent existence check, then Message.create on the trimmed content. -/
def postMessageRoute (db : Db) (idParam : String) (body : J) (now : Nat) : HttpResponse × Db :=
  match validateMessageInput body with
  | some resp => (resp, db)
  | none =>
    match parseIntOpt idParam with
    | none =>
      ({ status := 400,
         body := J.jobj [("success", J.jbool false), ("error", J.jstr "Invalid conversation ID")] },
       db)
    | some id =>
      match Conversation.findById db id with
      | none =>
        ({ status := 404,
           body := J.jobj [("success", J.jbool false), ("error", J.jstr "Conversation not found")] },
         db)
      | some _ =>
        match Message.create db id (String.mk (trimStr (jStrD (jLookup "content" body))))
            (jStrD (jLookup "type" body)) now with
        | Except.ok (m, db2) =>
          ({ status := 201, body := J.jobj [("success", J.jbool true), ("data", msgRowToJ m)] },
           db2)
        | Except.error _ =>
          ({ status := 500,
             body := J.jobj [("success", J.jbool false), ("error", J.jstr "Failed to create message")] },
           db)

/-- GET /api/conversations/search/:query (routes/api.js): an empty or
whitespace-only query parameter is rejected; otherwise the trimmed query is
searched and echoed back with a count — there is no limit/offset pagination
object on this endpoint. -/
def searchConversationsRoute (db : Db) (queryParam : String) (limit : Nat) : HttpResponse :=
  if (trimStr queryParam).isEmpty then
    { status := 400,
      body := J.jobj [("success", J.jbool false), ("error", J.jstr "Search query is required")] }
  else
    let conversations := Conversation.search db (String.mk (trimStr queryParam)) limit
    { status := 200,
      body := J.jobj
        [("success", J.jbool true),
         ("data", J.jarr (conversations.map convRowToJ)),
         ("query", J.jstr (String.mk (trimStr queryParam))),
         ("count", J.jnum conversations.length)] }

/-- GET /api/conversations/:id/messages/recent (routes/api.js): id
validation, existence check, then the recent messages with a count — there
is no limit/offset pagination object on this endpoint. -/
def getRecentMessagesRoute (db : Db) (idParam : String) (count : Nat) : HttpResponse :=
  match parseIntOpt idParam with
  | none =>
    { status := 400,
      body := J.jobj [("success", J.jbool false), ("error", J.jstr "Invalid conversation ID")] }
  | some id =>
    match Conversation.findById db id with
    | none =>
      { status := 404,
        body := J.jobj [("success", J.jbool false), ("error", J.jstr "Conversation not found")] }
    | some _ =>
      let messages := Message.getRecentMessages db id count
      { status := 200,
        body := J.jobj
          [("success", J.jbool true),
           ("data", J.jarr (messages.map msgRowToJ)),
           ("count", J.jnum messages.length)] }

/-- The body db.healthCheck() resolves to (config/database.js): status
healthy, or status unhealthy with the error message; it never throws. -/
def healthCheckBody (dbHealthy : Bool) (errMsg : String) (now : Nat) : J :=
  if dbHealthy then
    J.jobj [("status", J.jstr "healthy"), ("timestamp", J.jnum now)]
  else
    J.jobj [("status", J.jstr "unhealthy"), ("error", J.jstr errMsg), ("timestamp", J.jnum now)]

/-- GET /api/health (routes/api.js): a status-keyed body in both branches —
ok with the database health report, or error with the thrown message when
the handler itself throws.  Neither branch carries a success field. -/
def apiHealthRoute (handlerThrows dbHealthy : Bool) (errMsg : String) (now : Nat) :
    HttpResponse :=
  if handlerThrows then
    { status := 500, body := J.jobj [("status", J.jstr "error"), ("error", J.jstr errMsg)] }
  else
    { status := 200,
      body := J.jobj
        [("status", J.jstr "ok"), ("timestamp", J.jnum now),
         ("database", healthCheckBody dbHealthy errMsg now)] }

/-- The router-level catch-all under /api (routes/api.js): envelope present. -/
def routerNotFound : HttpResponse :=
  { status := 404, body := J.jobj [("success", J.jbool false), ("error", J.jstr "Endpoint not found")] }

/-- The server-level catch-all for paths outside /api (server.js): no
success field, only error, path and method. -/
def serverNotFound (path method : String) : HttpResponse :=
  { status := 404,
    body := J.jobj [("error", J.jstr "Endpoint not found"), ("path", J.jstr path),
                    ("method", J.jstr method)] }

/-- The body the express-rate-limit middleware sends past the cap
(server.js): an error message with no success field. -/
def rateLimitBody : J :=
  J.jobj [("error", J.jstr "Too many requests from this IP, please try again later.")]

/-- StringUtils.isValidInput (js/utils.js): the only place a 1000-character
bound exists, on the frontend send path, not at the HTTP boundary. -/
def isValidInput (text : String) : Bool :=
  !(text == "") && !(trimStr text).isEmpty && decide (text.length ≤ 1000)

/-! ## Client persistence façade, localStorage fallback (js/database-service.js) -/

/-- A conversation record in the local conversation list. -/
structure LocalConv where
  id : Nat
  title : String
  created_at : Nat
  updated_at : Nat
  message_count : Nat

/-- A message record in a per-conversation local list. -/
structure LocalMsg where
  id : Nat
  conversation_id : Nat
  content : String
  type : String
  timestamp : Nat

/-- The browser localStorage as seen by the façade: the conversation list
under the fixed key, one message list per conversation id key, and a flag
modelling the storage being full, in which case every setItem throws a
QuotaExceededError (getItem and removeItem never throw). -/
structure LStore where
  conversations : List LocalConv
  messagesFor : Nat → List LocalMsg
  quotaExceeded : Bool

/-- localStorage.setItem on the conversation-list key. -/
def setItemConversations (s : LStore) (cs : List LocalConv) : Except String LStore :=
  if s.quotaExceeded then Except.error "QuotaExceededError"
  else Except.ok { s with conversations := cs }

/-- localStorage.setItem on a per-conversation message key. -/
def setItemMessages (s : LStore) (convId : Nat) (ms : List LocalMsg) : Except String LStore :=
  if s.quotaExceeded then Except.error "QuotaExceededError"
  else Except.ok { s with messagesFor := fun k => if k == convId then ms else s.messagesFor k }

/-- localStorage.removeItem on a per-conversation message key: a missing key
and an empty stored list are indistinguishable to every reader, which parses
getItem(...) or the empty-array literal. -/
def removeItemMessages (s : LStore) (convId : Nat) : LStore :=
  { s with messagesFor := fun k => if k == convId then [] else s.messagesFor k }

/-- Result of getLocalConversations. -/
structure ConvsResult where
  success : Bool
  conversations : List LocalConv

/-- Result of getLocalMessages. -/
structure MsgsResult where
  success : Bool
  messages : List LocalMsg

/-- Result of createLocalConversation. -/
structure ConvResult where
  success : Bool
  conversation : LocalConv

/-- Result of addLocalMessage. -/
structure MsgResult where
  success : Bool
  message : LocalMsg

/-- Result of updateLocalConversationTitle / deleteLocalConversation. -/
structure SimpleResult where
  success : Bool

/-- Result of searchLocalConversations. -/
structure SearchResult where
  success : Bool
  conversations : List LocalConv
  query : String
  count : Nat

/-- The aggregate counters of getLocalConversationStats. -/
structure LocalStats where
  message_count : Nat
  total_messages : Nat
  user_messages : Nat
  ai_messages : Nat
  error_messages : Nat

/-- Result of getLocalConversationStats. -/
structure StatsResult where
  success : Bool
  stats : LocalStats

/-- getLocalConversations: parse of the stored list (or the empty-array
default); never throws. -/
def getLocalConversations (s : LStore) : ConvsResult :=
  { success := true, conversations := s.conversations }

/-- getLocalMessages: parse of the stored per-conversation list (or the
empty-array default); never throws. -/
def getLocalMessages (s : LStore) (convId : Nat) : MsgsResult :=
  { success := true, messages := s.messagesFor convId }

/-- Replace the first list element satisfying the predicate (the JavaScript
find-then-mutate idiom touches only the first match). -/
def updateFirst (p : α → Bool) (f : α → α) : List α → List α
  | [] => []
  | x :: xs => if p x then f x :: xs else x :: updateFirst p f xs

/-- createLocalConversation: build the record, unshift it onto the stored
list, setItem.  The setItem is not wrapped in try/catch, so a quota failure
propagates. -/
def createLocalConversation (s : LStore) (title : String) (now newId : Nat) :
    Except String (ConvResult × LStore) :=
  let conversation : LocalConv :=
    { id := newId, title := title, created_at := now, updated_at := now, message_count := 0 }
  let conversations := conversation :: (getLocalConversations s).conversations
  match setItemConversations s conversations with
  | Except.error e => Except.error e
  | Except.ok s1 => Except.ok ({ success := true, conversation := conversation }, s1)

/-- updateLocalConversationTimestamp: touch updated_at and bump
message_count on the first conversation with this id; silently do nothing
when no such conversation exists. -/
def updateLocalConversationTimestamp (s : LStore) (convId : Nat) (now : Nat) :
    Except String LStore :=
  match (getLocalConversations s).conversations.find? (fun c => c.id == convId) with
  | some _ =>
    setItemConversations s
      (updateFirst (fun c => c.id == convId)
        (fun c => { c with updated_at := now, message_count := c.message_count + 1 })
        (getLocalConversations s).conversations)
  | none => Except.ok s

/-- addLocalMessage: push the record onto the per-conversation list, setItem,
then the conversation-timestamp update.  No try/catch anywhere on the path. -/
def addLocalMessage (s : LStore) (convId : Nat) (content ty : String) (now newId : Nat) :
    Except String (MsgResult × LStore) :=
  let message : LocalMsg :=
    { id := newId, conversation_id := convId, content := content, type := ty, timestamp := now }
  let messages := (getLocalMessages s convId).messages ++ [message]
  match setItemMessages s convId messages with
  | Except.error e => Except.error e
  | Except.ok s1 =>
    match updateLocalConversationTimestamp s1 convId now with
    | Except.error e => Except.error e
    | Except.ok s2 => Except.ok ({ success := true, message := message }, s2)

/-- updateLocalConversationTitle: returns success false when no conversation
with this id exists, success true after the write otherwise. -/
def updateLocalConversationTitle (s : LStore) (convId : Nat) (title : String) (now : Nat) :
    Except String (SimpleResult × LStore) :=
  match (getLocalConversations s).conversations.find? (fun c => c.id == convId) with
  | some _ =>
    match setItemConversations s
        (updateFirst (fun c => c.id == convId)
          (fun c => { c with title := title, updated_at := now })
          (getLocalConversations s).conversations) with
    | Except.error e => Except.error e
    | Except.ok s1 => Except.ok ({ success := true }, s1)
  | none => Except.ok ({ success := false }, s)

/-- deleteLocalConversation: filter the list, write it back, remove the
message key; always reports success, with no not-found case. -/
def deleteLocalConversation (s : LStore) (convId : Nat) :
    Except String (SimpleResult × LStore) :=
  let filtered := (getLocalConversations s).conversations.filter (fun c => !(c.id == convId))
  match setItemConversations s filtered with
  | Except.error e => Except.error e
  | Except.ok s1 => Except.ok ({ success := true }, removeItemMessages s1 convId)

/-- searchLocalConversations: case-insensitive substring match against the
title only; message content is never consulted. -/
def searchLocalConversations (s : LStore) (query : String) : SearchResult :=
  let filtered := (getLocalConversations s).conversations.filter
    (fun c => strContainsCI c.title query)
  { success := true, conversations := filtered, query := query, count := filtered.length }

/-- getLocalConversationStats: counts by message type over the local list. -/
def getLocalConversationStats (s : LStore) (convId : Nat) : StatsResult :=
  let messages := (getLocalMessages s convId).messages
  { success := true,
    stats :=
      { message_count := messages.length,
        total_messages := messages.length,
        user_messages := (messages.filter (fun m => m.type == "user")).length,
        ai_messages := (messages.filter (fun m => m.type == "ai")).length,
        error_messages := (messages.filter (fun m => m.type == "error")).length } }

/-! The public façade methods when isBackendAvailable() is false route
straight to the localStorage equivalents; inside the async method a thrown
storage error becomes a rejected promise. -/

/-- createConversation in fallback mode. -/
def createConversationOffline (s : LStore) (title : String) (now newId : Nat) :
    Except String (ConvResult × LStore) :=
  createLocalConversation s title now newId

/-- getConversations in fallback mode. -/
def getConversationsOffline (s : LStore) : ConvsResult :=
  getLocalConversations s

/-- getMessages in fallback mode. -/
def getMessagesOffline (s : LStore) (convId : Nat) : MsgsResult :=
  getLocalMessages s convId

/-- addMessage in fallback mode. -/
def addMessageOffline (s : LStore) (convId : Nat) (content ty : String) (now newId : Nat) :
    Except String (MsgResult × LStore) :=
  addLocalMessage s convId content ty now newId

/-- updateConversationTitle in fallback mode. -/
def updateConversationTitleOffline (s : LStore) (convId : Nat) (title : String) (now : Nat) :
    Except String (SimpleResult × LStore) :=
  updateLocalConversationTitle s convId title now

/-- deleteConversation in fallback mode. -/
def deleteConversationOffline (s : LStore) (convId : Nat) :
    Except String (SimpleResult × LStore) :=
  deleteLocalConversation s convId

/-- searchConversations in fallback mode. -/
def searchConversationsOffline (s : LStore) (query : String) : SearchResult :=
  searchLocalConversations s query

/-- getConversationStats in fallback mode. -/
def getConversationStatsOffline (s : LStore) (convId : Nat) : StatsResult :=
  getLocalConversationStats s convId

/-! ## Concrete fixtures for counterexamples and witnesses -/

/-- An empty backend database with the timestamp update healthy. -/
def dbEmpty : Db :=
  { conversations := [], messages := [], nextConvId := 1, nextMsgId := 1,
    timestampUpdateFails := false }

/-- A backend database with one conversation and two of its messages. -/
def dbOne : Db :=
  { conversations := [{ id := 1, title := J.jstr "Weather", user_id := J.jnull,
                        created_at := 10, updated_at := 10 }],
    messages := [{ id := 1, conversation_id := 1, content := "tomatoes need sun", type := "ai",
                   timestamp := 11 },
                 { id := 2, conversation_id := 1, content := "more tomatoes", type := "user",
                   timestamp := 12 }],
    nextConvId := 2, nextMsgId := 3, timestampUpdateFails := false }

/-- A backend database whose conversation-timestamp UPDATE throws. -/
def dbFailingTouch : Db :=
  { dbOne with timestampUpdateFails := true }

/-- A local store with storage full: every setItem throws. -/
def storeFull : LStore :=
  { conversations := [], messagesFor := fun _ => [], quotaExceeded := true }

/-- A healthy local store holding one conversation whose message mentions
tomatoes while its title does not. -/
def storeOne : LStore :=
  { conversations := [{ id := 1, title := "Weather", created_at := 0, updated_at := 0,
                        message_count := 1 }],
    messagesFor := fun k =>
      if k == 1 then
        [{ id := 1, conversation_id := 1, content := "I love Tomatoes", type := "user",
           timestamp := 3 }]
      else [],
    quotaExceeded := false }

/-- A message content of 1001 identical characters. -/
def longContent : String := String.mk (List.replicate 1001 'x')

/-- The updated_at of the (first) conversation with this id, when present. -/
def convUpdatedAt (db : Db) (convId : Nat) : Option Nat :=
  (db.conversations.find? (fun c => c.id == convId)).map (fun c => c.updated_at)

/-! ## Helper lemmas -/

theorem setItemConversations_ok (s : LStore) (hq : s.quotaExceeded = false)
    (cs : List LocalConv) :
    setItemConversations s cs = Except.ok { s with conversations := cs } := by
  simp [setItemConversations, hq]

theorem setItemMessages_ok (s : LStore) (hq : s.quotaExceeded = false)
    (convId : Nat) (ms : List LocalMsg) :
    setItemMessages s convId ms =
      Except.ok { s with messagesFor := fun k => if k == convId then ms else s.messagesFor k } := by
  simp [setItemMessages, hq]

theorem updateLocalConversationTimestamp_not_found (s : LStore) (convId now : Nat)
    (h : s.conversations.find? (fun c => c.id == convId) = none) :
    updateLocalConversationTimestamp s convId now = Except.ok s := by
  simp only [updateLocalConversationTimestamp, getLocalConversations, h]

theorem updateLocalConversationTimestamp_ok (s : LStore) (hq : s.quotaExceeded = false)
    (convId now : Nat) :
    ∃ s1, updateLocalConversationTimestamp s convId now = Except.ok s1 ∧
      s1.messagesFor = s.messagesFor := by
  unfold updateLocalConversationTimestamp
  cases h : (getLocalConversations s).conversations.find? (fun c => c.id == convId) with
  | none => exact ⟨s, rfl, rfl⟩
  | some c =>
    simp only [setItemConversations_ok s hq]
    exact ⟨_, rfl, rfl⟩

theorem createLocalConversation_ok (s : LStore) (hq : s.quotaExceeded = false)
    (title : String) (now newId : Nat) :
    createLocalConversation s title now newId =
      Except.ok ({ success := true,
                   conversation := ⟨newId, title, now, now, 0⟩ },
        { s with conversations := ⟨newId, title, now, now, 0⟩ :: s.conversations }) := by
  unfold createLocalConversation
  simp only [setItemConversations_ok s hq]
  rfl

theorem deleteLocalConversation_ok (s : LStore) (hq : s.quotaExceeded = false) (convId : Nat) :
    deleteLocalConversation s convId =
      Except.ok ({ success := true },
        removeItemMessages
          { s with conversations := s.conversations.filter (fun c => !(c.id == convId)) } convId) := by
  unfold deleteLocalConversation
  simp only [setItemConversations_ok s hq]
  rfl

theorem addLocalMessage_ok (s : LStore) (hq : s.quotaExceeded = false)
    (convId : Nat) (content ty : String) (now newId : Nat) :
    ∃ s2, addLocalMessage s convId content ty now newId =
      Except.ok ({ success := true, message := ⟨newId, convId, content, ty, now⟩ }, s2) := by
  unfold addLocalMessage
  simp only [setItemMessages_ok s hq]
  obtain ⟨s2, h2, -⟩ :=
    updateLocalConversationTimestamp_ok
      { s with messagesFor := fun k =>
          if k == convId then (getLocalMessages s convId).messages ++
            [{ id := newId, conversation_id := convId, content := content, type := ty,
               timestamp := now }] else s.messagesFor k }
      hq convId now
  rw [h2]
  exact ⟨s2, rfl⟩

theorem updateLocalConversationTitle_ok (s : LStore) (hq : s.quotaExceeded = false)
    (convId : Nat) (title : String) (now : Nat) :
    ∃ r, updateLocalConversationTitle s convId title now = Except.ok r := by
  unfold updateLocalConversationTitle
  cases h : (getLocalConversations s).conversations.find? (fun c => c.id == convId) with
  | none => exact ⟨_, rfl⟩
  | some c =>
    simp only [setItemConversations_ok s hq]
    exact ⟨_, rfl⟩

theorem find?_map_touch (l : List ConvRow) (convId now : Nat) :
    (l.map (fun c => if c.id == convId then { c with updated_at := now } else c)).find?
        (fun c => c.id == convId) =
      (l.find? (fun c => c.id == convId)).map (fun c => { c with updated_at := now }) := by
  induction l with
  | nil => rfl
  | cons a l ih =>
    simp only [List.map_cons]
    cases h : (a.id == convId) with
    | true =>
      rw [if_pos rfl]
      have h1 : List.find? (fun c => c.id == convId)
          (({ a with updated_at := now } : ConvRow) ::
            l.map (fun c => if c.id == convId then { c with updated_at := now } else c)) =
          some { a with updated_at := now } :=
        List.find?_cons_of_pos _ h
      have h2 : List.find? (fun c => c.id == convId) (a :: l) = some a :=
        List.find?_cons_of_pos _ h
      rw [h1, h2]
      rfl
    | false =>
      rw [if_neg (show ¬ (false = true) from by simp)]
      have h1 : List.find? (fun c => c.id == convId)
          (a :: l.map (fun c => if c.id == convId then { c with updated_at := now } else c)) =
          List.find? (fun c => c.id == convId)
            (l.map (fun c => if c.id == convId then { c with updated_at := now } else c)) :=
        List.find?_cons_of_neg _ (by simp [h])
      have h2 : List.find? (fun c => c.id == convId) (a :: l) =
          List.find? (fun c => c.id == convId) l :=
        List.find?_cons_of_neg _ (by simp [h])
      rw [h1, h2, ih]

theorem updateConversationTimestamp_messages (db : Db) (convId now : Nat) :
    (Message.updateConversationTimestamp db convId now).messages = db.messages := by
  unfold Message.updateConversationTimestamp
  by_cases h : db.timestampUpdateFails = true
  · rw [if_pos h]
  · rw [if_neg h]

theorem updateConversationTimestamp_updatedAt (db : Db) (convId now : Nat)
    (hmono : ∀ c ∈ db.conversations, c.id = convId → c.updated_at ≤ now) :
    ∀ u v, convUpdatedAt db convId = some u →
      convUpdatedAt (Message.updateConversationTimestamp db convId now) convId = some v →
      u ≤ v := by
  intro u v hu hv
  unfold Message.updateConversationTimestamp at hv
  by_cases h : db.timestampUpdateFails
  · rw [if_pos h] at hv
    rw [hu] at hv
    cases hv
    exact Nat.le_refl u
  · rw [if_neg h] at hv
    simp only [convUpdatedAt] at hu hv
    rw [find?_map_touch] at hv
    cases hfind : db.conversations.find? (fun c => c.id == convId) with
    | none => rw [hfind] at hu; cases hu
    | some c =>
      rw [hfind] at hu hv
      simp only [Option.map_some'] at hu hv
      cases hu
      cases hv
      have hpc := @List.find?_some ConvRow (fun x => x.id == convId) c db.conversations hfind
      exact hmono c (List.mem_of_find?_eq_some hfind) (beq_iff_eq.mp hpc)

theorem isJStr_eq (v : Option J) (h : isJStr v = true) : ∃ s, v = some (J.jstr s) := by
  cases v with
  | none => exact Bool.noConfusion h
  | some j =>
    cases j with
    | jstr s => exact ⟨s, rfl⟩
    | jnull => exact Bool.noConfusion h
    | jbool b => exact Bool.noConfusion h
    | jnum n => exact Bool.noConfusion h
    | jarr xs => exact Bool.noConfusion h
    | jobj fs => exact Bool.noConfusion h

theorem jIncludes_eq (v : Option J) (l : List String) (h : jIncludes v l = true) :
    ∃ t, v = some (J.jstr t) ∧ l.contains t = true := by
  cases v with
  | none => exact Bool.noConfusion h
  | some j =>
    cases j with
    | jstr s => exact ⟨s, rfl, h⟩
    | jnull => exact Bool.noConfusion h
    | jbool b => exact Bool.noConfusion h
    | jnum n => exact Bool.noConfusion h
    | jarr xs => exact Bool.noConfusion h
    | jobj fs => exact Bool.noConfusion h

theorem validateMessageInput_some (body : J) (r : HttpResponse)
    (h : validateMessageInput body = some r) :
    r.status = 400 ∧ hasBoolKey "success" r.body = false := by
  simp only [validateMessageInput] at h
  split_ifs at h with h1 h2
  · cases h; exact ⟨rfl, rfl⟩
  · cases h; exact ⟨rfl, rfl⟩

theorem validateConversationInput_some (body : J) (r : HttpResponse)
    (h : validateConversationInput body = some r) :
    r.status = 400 ∧ hasBoolKey "success" r.body = false := by
  simp only [validateConversationInput] at h
  split_ifs at h with h1
  cases h
  exact ⟨rfl, rfl⟩

theorem validateMessageInput_none (body : J)
    (h : validateMessageInput body = none) :
    (∃ s, jLookup "content" body = some (J.jstr s) ∧ (trimStr s).isEmpty = false) ∧
    (∃ t, jLookup "type" body = some (J.jstr t) ∧ (t = "user" ∨ t = "ai" ∨ t = "error")) := by
  simp only [validateMessageInput] at h
  split_ifs at h with h1 h2
  simp only [Bool.or_eq_true, not_or, Bool.not_eq_true, Bool.not_eq_false'] at h1 h2
  obtain ⟨⟨htr, hstr⟩, htrim⟩ := h1
  obtain ⟨httr, hinc⟩ := h2
  obtain ⟨s, hcs⟩ := isJStr_eq _ hstr
  obtain ⟨t, hts, hmem⟩ := jIncludes_eq _ _ hinc
  refine ⟨⟨s, hcs, ?_⟩, ⟨t, hts, ?_⟩⟩
  · rw [hcs] at htrim
    exact htrim
  · simp [List.contains] at hmem
    rcases hmem with h | h | h
    · exact Or.inl h
    · exact Or.inr (Or.inl h)
    · exact Or.inr (Or.inr h)

theorem validateMessageInput_none_of_valid (body : J)
    (hc : ∃ s, jLookup "content" body = some (J.jstr s) ∧ (trimStr s).isEmpty = false)
    (ht : ∃ t, jLookup "type" body = some (J.jstr t) ∧ (t = "user" ∨ t = "ai" ∨ t = "error")) :
    validateMessageInput body = none := by
  obtain ⟨s, hcs, hse⟩ := hc
  obtain ⟨t, hts, htv⟩ := ht
  have hsne : (s == "") = false := by
    cases hq : s == "" with
    | false => rfl
    | true =>
      rw [show s = "" from beq_iff_eq.mp hq] at hse
      exact Bool.noConfusion hse
  unfold validateMessageInput
  rw [hcs, hts]
  rcases htv with h | h | h <;> subst h <;>
    simp [jsTruthy, isJStr, jStrD, jIncludes, hsne, hse]

/-! ## C8 -/

/-- C8: a message-append request whose type is outside user/ai/error, or
whose content is missing, not a string, or empty after trimming, is rejected
with a 400 validation error before any database access: the database state
is returned unchanged. -/
theorem c8_invalid_message_rejected (db : Db) (idParam : String) (body : J) (now : Nat)
    (hbad : ¬ ((∃ s, jLookup "content" body = some (J.jstr s) ∧ (trimStr s).isEmpty = false) ∧
               (∃ t, jLookup "type" body = some (J.jstr t) ∧
                 (t = "user" ∨ t = "ai" ∨ t = "error")))) :
    (postMessageRoute db idParam body now).1.status = 400 ∧
    (postMessageRoute db idParam body now).2 = db := by
  cases hv : validateMessageInput body with
  | none => exact absurd (validateMessageInput_none body hv) hbad
  | some r =>
    have hr := validateMessageInput_some body r hv
    unfold postMessageRoute
    rw [hv]
    exact ⟨hr.1, rfl⟩

/-- C8 witness: a request with type bogus is rejected and the database is
untouched. -/
theorem c8_invalid_message_rejected_witness :
    (postMessageRoute dbOne "1"
      (J.jobj [("content", J.jstr "hi"), ("type", J.jstr "bogus")]) 30).1.status = 400 ∧
    (postMessageRoute dbOne "1"
      (J.jobj [("content", J.jstr "hi"), ("type", J.jstr "bogus")]) 30).2 = dbOne := by
  refine c8_invalid_message_rejected dbOne "1" _ 30 ?_
  rintro ⟨-, t, ht, hcases⟩
  have h2 : (some (J.jstr "bogus") : Option J) = some (J.jstr t) := ht
  simp only [Option.some.injEq, J.jstr.injEq] at h2
  subst h2
  rcases hcases with h | h | h <;> exact absurd h (by decide)

/-! ## C3 -/

/-- C3 counterexample: a 1001-character content passes the HTTP API's
message validation and is stored; no 1000-character bound is enforced at the
boundary. -/
theorem c3_long_content_accepted :
    validateMessageInput (J.jobj [("content", J.jstr longContent), ("type", J.jstr "user")]) =
      none ∧
    (postMessageRoute dbOne "1"
      (J.jobj [("content", J.jstr longContent), ("type", J.jstr "user")]) 30).1.status = 201 ∧
    ((postMessageRoute dbOne "1"
      (J.jobj [("content", J.jstr longContent), ("type", J.jstr "user")]) 30).2.messages.map
        (fun m => m.content.length)) = [17, 13, 1001] :=
  ⟨rfl, rfl, rfl⟩

/-- C3 (amended): the HTTP API's message validation checks only that the
content is a string with non-empty trim and the type is in the closed
enumeration — it imposes no length bound; the 1000-character limit exists
only in the frontend's isValidInput. -/
theorem c3_length_not_enforced_at_boundary (body : J) (s : String) :
    (validateMessageInput body = none ↔
      ((∃ u, jLookup "content" body = some (J.jstr u) ∧ (trimStr u).isEmpty = false) ∧
       (∃ t, jLookup "type" body = some (J.jstr t) ∧ (t = "user" ∨ t = "ai" ∨ t = "error")))) ∧
    (1000 < s.length → isValidInput s = false) := by
  constructor
  · constructor
    · exact validateMessageInput_none body
    · intro hv
      exact validateMessageInput_none_of_valid body hv.1 hv.2
  · intro h
    unfold isValidInput
    rw [decide_eq_false (Nat.not_le.mpr h)]
    simp

/-- C3 witness: the frontend bound rejects the 1001-character content that
the API validation accepts. -/
theorem c3_length_not_enforced_at_boundary_witness :
    (1000 < longContent.length ∧ isValidInput longContent = false) ∧
    validateMessageInput (J.jobj [("content", J.jstr longContent), ("type", J.jstr "xx")]) ≠
      none := by
  constructor
  · exact ⟨by decide,
      (c3_length_not_enforced_at_boundary (J.jobj []) longContent).2 (by decide)⟩
  · intro hnone
    obtain ⟨-, t, ht, hcases⟩ :=
      (c3_length_not_enforced_at_boundary
        (J.jobj [("content", J.jstr longContent), ("type", J.jstr "xx")]) longContent).1.mp hnone
    have h2 : (some (J.jstr "xx") : Option J) = some (J.jstr t) := ht
    simp only [Option.some.injEq, J.jstr.injEq] at h2
    subst h2
    rcases hcases with h | h | h <;> exact absurd h (by decide)

/-! ## C2 -/

/-- C2 counterexample: a POST with a whitespace-only title is rejected with
a 400 validation error and nothing is stored (not defaulted), and a POST
with an empty-string title stores the empty string verbatim, not the
default New Conversation. -/
theorem c2_title_default_counterexample :
    (postConversations dbEmpty (J.jobj [("title", J.jstr " ")]) 5).1.status = 400 ∧
    (postConversations dbEmpty (J.jobj [("title", J.jstr " ")]) 5).2.conversations = [] ∧
    ((postConversations dbEmpty (J.jobj [("title", J.jstr "")]) 5).2.conversations.map
      (fun c => c.title)) = [J.jstr ""] :=
  ⟨rfl, rfl, rfl⟩

/-- C2 (amended): only a POST whose title property is absent stores the
default title New Conversation; a present whitespace-only (non-empty) title
is rejected with a 400 validation error by the shared middleware and nothing
is stored; a present empty-string title passes validation and is stored
verbatim as the empty string. -/
theorem c2_title_default_amended (db : Db) (body : J) (now : Nat) :
    (jLookup "title" body = none →
      (postConversations db body now).1.status = 201 ∧
      (postConversations db body now).2.conversations =
        db.conversations ++
          [{ id := db.nextConvId, title := J.jstr "New Conversation", user_id := userIdOf body,
             created_at := now, updated_at := now }]) ∧
    (∀ s, jLookup "title" body = some (J.jstr s) → s ≠ "" → (trimStr s).isEmpty = true →
      (postConversations db body now).1.status = 400 ∧
      (postConversations db body now).2 = db) ∧
    (jLookup "title" body = some (J.jstr "") →
      (postConversations db body now).1.status = 201 ∧
      (postConversations db body now).2.conversations =
        db.conversations ++
          [{ id := db.nextConvId, title := J.jstr "", user_id := userIdOf body,
             created_at := now, updated_at := now }]) := by
  refine ⟨?_, ?_, ?_⟩
  · intro h
    unfold postConversations validateConversationInput
    rw [h]
    simp only [jsTruthy, Bool.false_and, Bool.false_eq_true, if_false]
    exact ⟨trivial, rfl⟩
  · intro s h hne htrim
    have hsb : (s == "") = false := beq_eq_false_iff_ne.mpr hne
    unfold postConversations validateConversationInput
    rw [h]
    simp only [jsTruthy, isJStr, jStrD, hsb, htrim, Bool.not_false, Bool.true_and,
      Bool.or_true, if_true]
    exact ⟨trivial, trivial⟩
  · intro h
    unfold postConversations validateConversationInput
    rw [h]
    simp only [jsTruthy, isJStr, jStrD]
    rw [if_neg (by simp)]
    exact ⟨rfl, rfl⟩

/-- C2 witness: a POST with no title field stores the default title. -/
theorem c2_title_default_amended_witness :
    jLookup "title" (J.jobj []) = none ∧
    (postConversations dbEmpty (J.jobj []) 5).1.status = 201 ∧
    (postConversations dbEmpty (J.jobj []) 5).2.conversations =
      dbEmpty.conversations ++
        [{ id := dbEmpty.nextConvId, title := J.jstr "New Conversation",
           user_id := userIdOf (J.jobj []), created_at := 5, updated_at := 5 }] :=
  ⟨rfl, ((c2_title_default_amended dbEmpty (J.jobj []) 5).1 rfl).1,
    ((c2_title_default_amended dbEmpty (J.jobj []) 5).1 rfl).2⟩

/-! ## C4 -/

/-- C4 counterexample: in fallback mode the façade's search matches titles
only, so a query that occurs (case-insensitively) in a stored message's
content but not in the conversation's title returns nothing — the
conversation is not returned at all, let alone exactly once. -/
theorem c4_local_search_misses_content_match :
    ((storeOne.messagesFor 1).any (fun m => strContainsCI m.content "tomato")) = true ∧
    (storeOne.conversations.map (fun c => strContainsCI c.title "tomato")) = [false] ∧
    (searchConversationsOffline storeOne "tomato").conversations = [] ∧
    (searchConversationsOffline storeOne "tomato").count = 0 :=
  ⟨rfl, rfl, rfl, rfl⟩

/-- C4 (amended): the backend query-layer search does satisfy the property —
a conversation one of whose messages contains the query case-insensitively
is returned exactly once (GROUP BY deduplicates several matching messages),
provided the conversation ids are distinct and the matches fit within the
limit; the local-storage fallback search, by contrast, consults titles only
(see the counterexample). -/
theorem c4_backend_search_content_match_once (db : Db) (query : String) (limit : Nat)
    (c : ConvRow) (hc : c ∈ db.conversations)
    (hnodup : (db.conversations.map (fun x => x.id)).Nodup)
    (hmsg : (db.messages.filter (fun m => m.conversation_id == c.id)).any
      (fun m => strContainsCI m.content query) = true)
    (htitle : jLike c.title query = false)
    (hlim : (db.conversations.filter (Conversation.convMatches db query)).length ≤ limit) :
    (Conversation.search db query limit).countP (fun x => x.id == c.id) = 1 := by
  have hmatch : Conversation.convMatches db query c = true := by
    unfold Conversation.convMatches
    rw [hmsg, Bool.or_true]
  unfold Conversation.search
  have hlen : (List.insertionSort byUpdatedDesc
      (db.conversations.filter (Conversation.convMatches db query))).length ≤ limit := by
    rw [List.length_insertionSort]
    exact hlim
  rw [List.take_of_length_le hlen]
  rw [(List.perm_insertionSort byUpdatedDesc
    (db.conversations.filter (Conversation.convMatches db query))).countP_eq]
  rw [List.countP_filter]
  have hcongr : ∀ x ∈ db.conversations,
      ((x.id == c.id) && Conversation.convMatches db query x) = true ↔ (x.id == c.id) = true := by
    intro x hx
    constructor
    · intro hx2
      rw [Bool.and_eq_true] at hx2
      exact hx2.1
    · intro hx2
      have hxc : x = c :=
        List.inj_on_of_nodup_map hnodup hx hc (beq_iff_eq.mp hx2)
      subst hxc
      rw [Bool.and_eq_true]
      exact ⟨hx2, hmatch⟩
  rw [List.countP_congr hcongr]
  have hmapc : db.conversations.countP (fun x => x.id == c.id) =
      (db.conversations.map (fun x => x.id)).countP (fun i => i == c.id) := by
    rw [List.countP_map]
    exact List.countP_congr (fun x hx => Iff.rfl)
  rw [hmapc]
  rw [← List.count_eq_countP]
  exact List.count_eq_one_of_mem hnodup (List.mem_map_of_mem _ hc)

/-- C4 witness: on a concrete database, the query tomato occurs only in the
message content of the Weather conversation, and the backend search returns
that conversation exactly once. -/
theorem c4_backend_search_content_match_once_witness :
    ((dbOne.messages.filter (fun m => m.conversation_id == 1)).any
      (fun m => strContainsCI m.content "tomato") = true) ∧
    jLike (J.jstr "Weather") "tomato" = false ∧
    (Conversation.search dbOne "tomato" 20).countP (fun x => x.id == 1) = 1 := by
  refine ⟨rfl, rfl, ?_⟩
  exact c4_backend_search_content_match_once dbOne "tomato" 20
    { id := 1, title := J.jstr "Weather", user_id := J.jnull, created_at := 10, updated_at := 10 }
    (List.mem_cons_self _ _) (by decide) rfl rfl (by decide)

/-! ## C5 -/

/-- C5 counterexample: the validation-error response, both branches of the
/api/health handler, the server-level 404 response for paths outside the
API prefix, and the rate-limit body all lack the success field of the
uniform envelope. -/
theorem c5_envelope_counterexample :
    (validateMessageInput (J.jobj [])).isSome = true ∧
    hasBoolKey "success"
      ((validateMessageInput (J.jobj [])).getD { status := 0, body := J.jnull }).body = false ∧
    hasBoolKey "success" (apiHealthRoute false true "" 7).body = false ∧
    hasBoolKey "success" (apiHealthRoute true true "boom" 7).body = false ∧
    hasBoolKey "success" (serverNotFound "/nope" "GET").body = false ∧
    hasBoolKey "success" rateLimitBody = false :=
  ⟨rfl, rfl, rfl, rfl, rfl, rfl⟩

/-- C5 (amended): the conversation and message route handlers' own
responses — created/ok responses, their 400/404/500 error responses, the
search and recent-messages endpoints, and the router-level catch-all under
the API prefix — carry the uniform success envelope; the limit/offset/count
pagination object appears only on the two list endpoints (conversation list
and message list), while the search and recent-messages endpoints return
only a count without a pagination object.  No success field appears in the
validation-middleware 400 responses, either branch of the /api/health
handler (whose bodies are status-keyed), the server-level 404 for non-API
paths, or the rate-limit body. -/
theorem c5_envelope_amended :
    (∀ db body now, validateConversationInput body = none →
      hasBoolKey "success" (postConversations db body now).1.body = true) ∧
    (∀ db limit offset, hasBoolKey "success" (getConversationsRoute db limit offset).body = true ∧
      hasPagination (getConversationsRoute db limit offset).body = true) ∧
    (∀ db idParam limit offset,
      hasBoolKey "success" (getMessagesRoute db idParam limit offset).body = true) ∧
    (∀ db idParam limit offset id c, parseIntOpt idParam = some id →
      Conversation.findById db id = some c →
      hasPagination (getMessagesRoute db idParam limit offset).body = true) ∧
    (∀ db idParam body now, validateMessageInput body = none →
      hasBoolKey "success" (postMessageRoute db idParam body now).1.body = true) ∧
    hasBoolKey "success" routerNotFound.body = true ∧
    (∀ db queryParam limit,
      hasBoolKey "success" (searchConversationsRoute db queryParam limit).body = true ∧
      hasPagination (searchConversationsRoute db queryParam limit).body = false) ∧
    (∀ db idParam count,
      hasBoolKey "success" (getRecentMessagesRoute db idParam count).body = true ∧
      hasPagination (getRecentMessagesRoute db idParam count).body = false) ∧
    (∀ handlerThrows dbHealthy errMsg now,
      hasBoolKey "success" (apiHealthRoute handlerThrows dbHealthy errMsg now).body = false) ∧
    (∀ body r, validateConversationInput body = some r →
      r.status = 400 ∧ hasBoolKey "success" r.body = false) ∧
    (∀ body r, validateMessageInput body = some r →
      r.status = 400 ∧ hasBoolKey "success" r.body = false) ∧
    (∀ path method, hasBoolKey "success" (serverNotFound path method).body = false) ∧
    hasBoolKey "success" rateLimitBody = false := by
  refine ⟨?_, ?_, ?_, ?_, ?_, rfl, ?_, ?_, ?_, ?_, ?_, ?_, rfl⟩
  · intro db body now hv
    simp only [postConversations, hv]
    rfl
  · intro db limit offset
    exact ⟨rfl, rfl⟩
  · intro db idParam limit offset
    unfold getMessagesRoute
    split
    · rfl
    · split
      · rfl
      · rfl
  · intro db idParam limit offset id c h1 h2
    simp only [getMessagesRoute, h1, h2]
    rfl
  · intro db idParam body now hv
    simp only [postMessageRoute, hv]
    split
    · rfl
    · split
      · rfl
      · split
        · rfl
        · rfl
  · intro db queryParam limit
    unfold searchConversationsRoute
    split
    · exact ⟨rfl, rfl⟩
    · exact ⟨rfl, rfl⟩
  · intro db idParam count
    unfold getRecentMessagesRoute
    split
    · exact ⟨rfl, rfl⟩
    · split
      · exact ⟨rfl, rfl⟩
      · exact ⟨rfl, rfl⟩
  · intro handlerThrows dbHealthy errMsg now
    unfold apiHealthRoute
    split
    · rfl
    · rfl
  · exact validateConversationInput_some
  · exact validateMessageInput_some
  · intro path method
    rfl

/-- C5 witness: the envelope holds on the handler responses of a concrete
database, the recent-messages endpoint carries no pagination object, and
the health handler's body has no success flag. -/
theorem c5_envelope_amended_witness :
    validateConversationInput (J.jobj []) = none ∧
    hasBoolKey "success" (postConversations dbEmpty (J.jobj []) 5).1.body = true ∧
    hasPagination (getConversationsRoute dbEmpty 10 0).body = true ∧
    hasPagination (getRecentMessagesRoute dbOne "1" 5).body = false ∧
    hasBoolKey "success" (apiHealthRoute false false "down" 7).body = false :=
  ⟨rfl, c5_envelope_amended.1 dbEmpty (J.jobj []) 5 rfl,
    (c5_envelope_amended.2.1 dbEmpty 10 0).2,
    (c5_envelope_amended.2.2.2.2.2.2.2.1 dbOne "1" 5).2,
    c5_envelope_amended.2.2.2.2.2.2.2.2.1 false false "down" 7⟩

/-! ## C6 -/

/-- C6: creating a message always triggers the update of the parent
conversation's updated_at, and in particular after the append the stored
updated_at is at least its value before the append; a failure of that
timestamp update (the timestampUpdateFails error path, swallowed inside
updateConversationTimestamp) never fails the creation call: the message is
still created and returned. -/
theorem c6_message_create_best_effort (db : Db) (convId : Nat) (content ty : String) (now : Nat)
    (hex : db.conversations.any (fun c => c.id == convId) = true)
    (hmono : ∀ c ∈ db.conversations, c.id = convId → c.updated_at ≤ now) :
    ∃ m db2, Message.create db convId content ty now = Except.ok (m, db2) ∧
      m = { id := db.nextMsgId, conversation_id := convId, content := content, type := ty,
            timestamp := now } ∧
      m ∈ db2.messages ∧
      ∀ u v, convUpdatedAt db convId = some u → convUpdatedAt db2 convId = some v → u ≤ v := by
  unfold Message.create
  rw [if_pos hex]
  refine ⟨_, _, rfl, rfl, ?_, ?_⟩
  · rw [updateConversationTimestamp_messages]
    simp
  · intro u v hu hv
    exact updateConversationTimestamp_updatedAt
      { db with
        messages := db.messages ++
          [{ id := db.nextMsgId, conversation_id := convId, content := content, type := ty,
             timestamp := now }],
        nextMsgId := db.nextMsgId + 1 }
      convId now hmono u v hu hv

/-- C6 witness: on a database whose conversation-timestamp UPDATE throws,
the message is still created, returned and stored. -/
theorem c6_message_create_best_effort_witness :
    dbFailingTouch.conversations.any (fun c => c.id == 1) = true ∧
    ∃ m db2, Message.create dbFailingTouch 1 "hello" "user" 20 = Except.ok (m, db2) ∧
      m ∈ db2.messages := by
  refine ⟨rfl, ?_⟩
  obtain ⟨m, db2, h1, -, h3, -⟩ :=
    c6_message_create_best_effort dbFailingTouch 1 "hello" "user" 20 rfl (by decide)
  exact ⟨m, db2, h1, h3⟩

/-! ## C7 -/

/-- C7: the plain message-list query returns the conversation's messages in
ascending timestamp order, and the recent-messages query returns the n
messages with the greatest timestamps (every returned message's timestamp
dominates every message left behind by the LIMIT), re-sorted ascending. -/
theorem c7_message_order (db : Db) (convId n limit offset : Nat) :
    List.Pairwise byTimestampAsc (Message.findByConversationId db convId limit offset) ∧
    List.Pairwise byTimestampAsc (Message.getRecentMessages db convId n) ∧
    (Message.getRecentMessages db convId n).length =
      min n (Message.ofConversation db convId).length ∧
    (∀ x ∈ Message.getRecentMessages db convId n, x ∈ Message.ofConversation db convId) ∧
    (∀ x ∈ Message.getRecentMessages db convId n,
      ∀ y ∈ (List.insertionSort byTimestampDesc (Message.ofConversation db convId)).drop n,
        y.timestamp ≤ x.timestamp) := by
  refine ⟨?_, ?_, ?_, ?_, ?_⟩
  · exact (List.sorted_insertionSort byTimestampAsc (Message.ofConversation db convId)).sublist
      ((List.take_sublist _ _).trans (List.drop_sublist _ _))
  · exact List.pairwise_reverse.mpr
      ((List.sorted_insertionSort byTimestampDesc (Message.ofConversation db convId)).sublist
        (List.take_sublist _ _))
  · simp [Message.getRecentMessages, List.length_take, List.length_insertionSort]
  · intro x hx
    unfold Message.getRecentMessages at hx
    rw [List.mem_reverse] at hx
    have hx2 : x ∈ List.insertionSort byTimestampDesc (Message.ofConversation db convId) :=
      (List.take_sublist _ _).subset hx
    exact (List.mem_insertionSort byTimestampDesc).mp hx2
  · intro x hx y hy
    unfold Message.getRecentMessages at hx
    rw [List.mem_reverse] at hx
    have hsorted := List.sorted_insertionSort byTimestampDesc (Message.ofConversation db convId)
    have hsplit : List.Pairwise byTimestampDesc
        ((List.insertionSort byTimestampDesc (Message.ofConversation db convId)).take n ++
         (List.insertionSort byTimestampDesc (Message.ofConversation db convId)).drop n) := by
      rw [List.take_append_drop]
      exact hsorted
    exact (List.pairwise_append.mp hsplit).2.2 x hx y hy

/-- C7 witness: the ordering theorem applied to a concrete database. -/
theorem c7_message_order_witness :
    List.Pairwise byTimestampAsc (Message.findByConversationId dbOne 1 10 0) ∧
    (Message.getRecentMessages dbOne 1 1).length = min 1 (Message.ofConversation dbOne 1).length :=
  ⟨(c7_message_order dbOne 1 1 10 0).1, (c7_message_order dbOne 1 1 10 0).2.2.1⟩

/-! ## C1 -/

/-- C1 counterexample: in fallback mode a localStorage write failure (quota
exceeded) does not surface as a boolean failure result — createConversation,
addMessage and deleteConversation all propagate the thrown QuotaExceededError,
i.e. the returned promise rejects. -/
theorem c1_quota_write_failure_rejects :
    createConversationOffline storeFull "Hello" 5 7 = Except.error "QuotaExceededError" ∧
    addMessageOffline storeFull 1 "hi" "user" 5 7 = Except.error "QuotaExceededError" ∧
    deleteConversationOffline storeFull 1 = Except.error "QuotaExceededError" :=
  ⟨rfl, rfl, rfl⟩

/-- C1 (amended): provided every localStorage write succeeds, each public
façade method in fallback mode resolves to a result object carrying a
success flag and never rejects; but a storage write failure propagates as an
exception instead of a boolean failure result. -/
theorem c1_facade_offline_resolves (s : LStore) (hq : s.quotaExceeded = false)
    (title content ty query : String) (convId now newId : Nat) :
    (∃ r, createConversationOffline s title now newId = Except.ok r ∧ r.1.success = true) ∧
    (getConversationsOffline s).success = true ∧
    (getMessagesOffline s convId).success = true ∧
    (∃ r, addMessageOffline s convId content ty now newId = Except.ok r ∧ r.1.success = true) ∧
    (∃ r, updateConversationTitleOffline s convId title now = Except.ok r) ∧
    (∃ r, deleteConversationOffline s convId = Except.ok r ∧ r.1.success = true) ∧
    (searchConversationsOffline s query).success = true ∧
    (getConversationStatsOffline s convId).success = true := by
  refine ⟨⟨_, createLocalConversation_ok s hq title now newId, rfl⟩, rfl, rfl, ?_, ?_,
    ⟨_, deleteLocalConversation_ok s hq convId, rfl⟩, rfl, rfl⟩
  · obtain ⟨s2, h2⟩ := addLocalMessage_ok s hq convId content ty now newId
    exact ⟨_, h2, rfl⟩
  · exact updateLocalConversationTitle_ok s hq convId title now

/-- C1 witness: the amended theorem applied to a concrete healthy store. -/
theorem c1_facade_offline_resolves_witness :
    storeOne.quotaExceeded = false ∧
    (∃ r, createConversationOffline storeOne "Chat" 5 9 = Except.ok r ∧ r.1.success = true) ∧
    (searchConversationsOffline storeOne "tom").success = true :=
  ⟨rfl, (c1_facade_offline_resolves storeOne rfl "Chat" "hi" "user" "tom" 1 5 9).1,
    (c1_facade_offline_resolves storeOne rfl "Chat" "hi" "user" "tom" 1 5 9).2.2.2.2.2.2.1⟩

/-! ## C9 -/

/-- C9: in fallback mode deleteConversation resolves to success true for
every conversation id, including ids with no record, while the fallback
title update resolves to success false for an unknown id. -/
theorem c9_offline_delete_never_not_found (s : LStore) (hq : s.quotaExceeded = false)
    (convId : Nat) (title : String) (now : Nat) :
    (∃ s1, deleteConversationOffline s convId = Except.ok ({ success := true }, s1)) ∧
    (s.conversations.find? (fun c => c.id == convId) = none →
      updateConversationTitleOffline s convId title now = Except.ok ({ success := false }, s)) := by
  constructor
  · exact ⟨_, deleteLocalConversation_ok s hq convId⟩
  · intro h
    simp only [updateConversationTitleOffline, updateLocalConversationTitle,
      getLocalConversations, h]

/-- C9 witness: deleting an id with no record still reports success, and the
title update for the same unknown id reports failure. -/
theorem c9_offline_delete_never_not_found_witness :
    storeOne.conversations.find? (fun c => c.id == 99) = none ∧
    (∃ s1, deleteConversationOffline storeOne 99 = Except.ok ({ success := true }, s1)) ∧
    updateConversationTitleOffline storeOne 99 "Title" 7 =
      Except.ok ({ success := false }, storeOne) :=
  ⟨rfl, (c9_offline_delete_never_not_found storeOne rfl 99 "Title" 7).1,
    (c9_offline_delete_never_not_found storeOne rfl 99 "Title" 7).2 rfl⟩

/-! ## C10 -/

/-- C10: in fallback mode addMessage succeeds and durably stores the message
under the per-conversation key even when no conversation with that id exists
in the local list; in that orphan case the parent timestamp and count update
silently does nothing, leaving the conversation list unchanged. -/
theorem c10_offline_add_message_orphan (s : LStore) (hq : s.quotaExceeded = false)
    (convId : Nat) (content ty : String) (now newId : Nat)
    (horphan : s.conversations.find? (fun c => c.id == convId) = none) :
    ∃ s2, addMessageOffline s convId content ty now newId =
        Except.ok ({ success := true,
                     message := { id := newId, conversation_id := convId, content := content,
                                  type := ty, timestamp := now } }, s2) ∧
      s2.messagesFor convId = s.messagesFor convId ++
        [{ id := newId, conversation_id := convId, content := content, type := ty,
           timestamp := now }] ∧
      s2.conversations = s.conversations := by
  unfold addMessageOffline addLocalMessage
  simp only [setItemMessages_ok s hq]
  rw [updateLocalConversationTimestamp_not_found
    { s with messagesFor := fun k =>
        if k == convId then
          (getLocalMessages s convId).messages ++
            [{ id := newId, conversation_id := convId, content := content, type := ty,
               timestamp := now }]
        else s.messagesFor k } convId now horphan]
  refine ⟨_, rfl, ?_, rfl⟩
  simp [getLocalMessages]

/-- C10 witness: appending to an id absent from the local conversation list
still stores the message and leaves the conversation list untouched. -/
theorem c10_offline_add_message_orphan_witness :
    storeOne.conversations.find? (fun c => c.id == 42) = none ∧
    ∃ s2, addMessageOffline storeOne 42 "hi" "user" 8 77 =
        Except.ok ({ success := true,
                     message := { id := 77, conversation_id := 42, content := "hi",
                                  type := "user", timestamp := 8 } }, s2) ∧
      s2.messagesFor 42 = storeOne.messagesFor 42 ++
        [{ id := 77, conversation_id := 42, content := "hi", type := "user", timestamp := 8 }] ∧
      s2.conversations = storeOne.conversations :=
  ⟨rfl, c10_offline_add_message_orphan storeOne rfl 42 "hi" "user" 8 77 rfl⟩

end AgriChat
